import Mathlib

/-
Shallow embedding of copert.py (class Copert), the COPERT road-transport
emission model.  Numeric inputs (speed in km/h, engine capacity in liters,
distance in km) are rationals: every Python float literal and every float
input is a rational number, and all branch conditions in the source compare
such inputs with rational constants, so the control flow is decidable.
Results are real numbers since the formula library uses exp, log and real
powers.  A Python function that raises is modelled with Except; a function
that falls off the end of its if/elif chain (returning None) yields
PyResult.none; a float NaN result yields PyResult.nan.
-/

set_option maxHeartbeats 1000000
set_option linter.unusedVariables false

/-- Pollutant codes (copert.py lines 137-143). -/
inductive Pollutant
  | CO | HC | NOx | PM | FC | VOC
deriving DecidableEq

/-- Emission-standard classes for passenger cars and light commercial
vehicles (copert.py lines 31-48). -/
inductive CopertClass
  | PRE_ECE | ECE_15_00_or_01 | ECE_15_02 | ECE_15_03 | ECE_15_04
  | Improved_Conventional | Open_loop
  | Euro_1 | Euro_2 | Euro_3 | Euro_3_GDI | Euro_4 | Euro_5 | Euro_6 | Euro_6c
deriving DecidableEq

/-- Engine types (copert.py lines 69-82); the source spells two of them
with the typo "tow". -/
inductive EngineType
  | gasoline | diesel | LPG | two_stroke_gasoline | hybrids | E85 | CNG
  | tow_stroke_less_50 | tow_stroke_more_50 | four_stroke_less_50
  | four_stroke_50_250 | four_stroke_250_750 | four_stroke_more_750
deriving DecidableEq

/-- Vehicle types (copert.py lines 89-95, keeping the source spellings). -/
inductive VehicleType
  | passenger_car | light_commercial_vehicule | heavy_duty_vehicle
  | bus | moped | motocycle
deriving DecidableEq

/-- The integer value each class constant has in copert.py (lines 33-48).
The source compares classes with <= and >= on these integers. -/
def classNumber : CopertClass → ℕ
  | .PRE_ECE => 0
  | .ECE_15_00_or_01 => 1
  | .ECE_15_02 => 2
  | .ECE_15_03 => 3
  | .ECE_15_04 => 4
  | .Improved_Conventional => 5
  | .Open_loop => 6
  | .Euro_1 => 7
  | .Euro_2 => 8
  | .Euro_3 => 9
  | .Euro_3_GDI => 10
  | .Euro_4 => 11
  | .Euro_5 => 12
  | .Euro_6 => 13
  | .Euro_6c => 14

/-- global_class_index.index(copert_class) for the list
[Euro_1, Euro_2, Euro_3, Euro_4, Euro_5, Euro_6, Euro_6c]
(copert.py lines 893-897 and 936-939); none models the ValueError that
list.index raises when the class is absent (all pre-Euro classes and
Euro_3_GDI). -/
def globalClassIndex : CopertClass → Option ℕ
  | .Euro_1 => some 0
  | .Euro_2 => some 1
  | .Euro_3 => some 2
  | .Euro_4 => some 3
  | .Euro_5 => some 4
  | .Euro_6 => some 5
  | .Euro_6c => some 6
  | _ => none

/-- The distinct raise sites of copert.py (one constructor per distinct
exception message), plus the exceptions Python itself raises on the dead
lookups (KeyError from a dict, IndexError from numpy indexing, ValueError
from list.index, TypeError from arithmetic on None). -/
inductive CopertError
  | speedOutOfDomain
  | capacityBelow08
  | capacityOutOfRange
  | dieselEuro3GDI
  | dieselSmallEngineNoFormula
  | lcvGasolinePMHC
  | lcvDieselHC
  | lcvEuro2to4NoFormula
  | hdvNoFormula
  | onlyPassengerCars
  | onlyGasolineDiesel
  | keyError
  | indexError
  | valueError
  | typeError
deriving DecidableEq

/-- Value a Python function call can produce when it does not raise:
a float, the float NaN, or the implicit None of a missing return. -/
inductive PyResult
  | none
  | nan
  | val (x : ℝ)

/-- constant (copert.py line 155). -/
noncomputable def constant (a : ℝ) : ℝ := a

/-- linear (copert.py line 156). -/
noncomputable def linear (a b x : ℝ) : ℝ := a * x + b

/-- quadratic (copert.py line 157). -/
noncomputable def quadratic (a b c x : ℝ) : ℝ := a * x ^ 2 + b * x + c

/-- power (copert.py line 158); a Python float power is the real power. -/
noncomputable def power (a b x : ℝ) : ℝ := a * x ^ b

/-- exponential (copert.py line 159). -/
noncomputable def exponential (a b x : ℝ) : ℝ := a * Real.exp (b * x)

/-- logarithm (copert.py line 160). -/
noncomputable def logarithm (a b x : ℝ) : ℝ := a + b * Real.log x

/-- EF_25 (copert.py lines 166-167); the binder f is unused in the source
lambda as well. -/
noncomputable def EF_25 (a b c d e f V : ℝ) : ℝ :=
  (a + c * V + e * V ^ 2) / (1 + b * V + d * V ^ 2)

/-- EF_26 (copert.py lines 168-169). -/
noncomputable def EF_26 (a b c d e f V : ℝ) : ℝ :=
  a * V ^ 5 + b * V ^ 4 + c * V ^ 3 + d * V ^ 2 + e * V + f

/-- EF_27 (copert.py lines 170-171). -/
noncomputable def EF_27 (a b c d e f V : ℝ) : ℝ :=
  (a + c * V + e * V ^ 2 + f / V) / (1 + b * V + d * V ^ 2)

/-- EF_28 (copert.py line 172); e and f are unused in the source lambda. -/
noncomputable def EF_28 (a b c d e f V : ℝ) : ℝ :=
  a * V ^ b + c * V ^ d

/-- EF_30 (copert.py lines 173-174). -/
noncomputable def EF_30 (a b c d e f V : ℝ) : ℝ :=
  (a + c * V + e * V ^ 2) / (1 + b * V + d * V ^ 2) + f / V

/-- EF_31 (copert.py lines 175-176); f is unused in the source lambda. -/
noncomputable def EF_31 (a b c d e f V : ℝ) : ℝ :=
  a + b / (1 + Real.exp ((-1 * c) + d * Real.log V + e * V))

/-- Eq_1 (copert.py lines 181-183); the source adds 0. * (g + h). -/
noncomputable def Eq_1 (a b c d e f g h rf V : ℝ) : ℝ :=
  ((a + c * V + e * V ^ 2 + f / V) / (1 + b * V + d * V ^ 2)) * (1 - rf)
    + 0 * (g + h)

/-- Eq_2 (copert.py lines 184-186). -/
noncomputable def Eq_2 (a b c d e f g h rf V : ℝ) : ℝ :=
  ((a * V ^ 2) + (b * V) + c + (d * Real.log V)
    + (e * Real.exp (f * V)) + (g * (V ^ h))) * (1 - rf)

/-- Eq_3 (copert.py lines 187-189). -/
noncomputable def Eq_3 (a b c d e f g h rf V : ℝ) : ℝ :=
  (a + b * (1 + Real.exp (-(V + c) / d))⁻¹) * (1 - rf) + 0 * (e + f + g + h)

/-- Eq_4 (copert.py lines 190-191). -/
noncomputable def Eq_4 (a b c d e f g h rf V : ℝ) : ℝ :=
  (a * V ^ b) * (1 - rf) + 0 * (c + d + e + f + g + h)

/-- Eq_5 (copert.py lines 192-194). -/
noncomputable def Eq_5 (a b c d e f g h rf V : ℝ) : ℝ :=
  (((a * V ^ 2) + (b * V) + c + (d * Real.log V)
    + (e * Real.exp (f * V)) + (g * (V ^ h))) * (1 - rf)) / 1000

/-- Eq_6 (copert.py lines 195-198). -/
noncomputable def Eq_6 (a b c d e f g h rf V : ℝ) : ℝ :=
  (a + b / (1 + Real.exp ((-1 * c + d * Real.log V) + e * V))) * (1 - rf)
    + 0 * (f + g + h)

/-- Eq_7 (copert.py lines 199-200). -/
noncomputable def Eq_7 (a b c d e f g h rf V : ℝ) : ℝ :=
  ((a * V ^ 3 + b * V ^ 2) + c * V + d) * (1 - rf) + 0 * (e + f + g + h)

/-- Eq_8 (copert.py lines 201-202). -/
noncomputable def Eq_8 (a b c d e f g h rf V : ℝ) : ℝ :=
  (a * b ^ V * V ^ c) * (1 - rf) + 0 * (d + e + f + g + h)

/-- Eq_9 (copert.py lines 203-204); the source reuses d (not h) in its
zero summand. -/
noncomputable def Eq_9 (a b c d e f g h rf V : ℝ) : ℝ :=
  ((a * V ^ b) + c * V ^ d) * (1 - rf) + 0 * (d + e + f + g + h)

/-- Eq_10 (copert.py lines 205-206). -/
noncomputable def Eq_10 (a b c d e f g h rf V : ℝ) : ℝ :=
  (1 / (a + b * V ^ c)) * (1 - rf) + 0 * (d + e + f + g + h)

/-- Eq_11 (copert.py lines 207-208). -/
noncomputable def Eq_11 (a b c d e f g h rf V : ℝ) : ℝ :=
  ((a + b * V) ^ (-1 / c)) * (1 - rf) + 0 * (d + e + f + g + h)

/-- Eq_12 (copert.py lines 209-210). -/
noncomputable def Eq_12 (a b c d e f g h rf V : ℝ) : ℝ :=
  (1 / (c * V ^ 2 + b * V + a)) * (1 - rf) + 0 * (d + e + f + g + h)

/-- Eq_13 (copert.py lines 211-213). -/
noncomputable def Eq_13 (a b c d e f g h rf V : ℝ) : ℝ :=
  Real.exp ((a + b / V) + (c * Real.log V)) * (1 - rf) + 0 * (d + e + f + g + h)

/-- Eq_14 (copert.py lines 214-216). -/
noncomputable def Eq_14 (a b c d e f g h rf V : ℝ) : ℝ :=
  (e + a * Real.exp (-1 * b * V) + c * Real.exp (-1 * d * V)) * (1 - rf)
    + 0 * (f + g + h)

/-- Eq_15 (copert.py lines 217-218). -/
noncomputable def Eq_15 (a b c d e f g h rf V : ℝ) : ℝ :=
  (a * V ^ 2 + b * V + c) * (1 - rf) + 0 * (d + e + f + g + h)

/-- Eq_16 (copert.py lines 219-220). -/
noncomputable def Eq_16 (a b c d e f g h rf V : ℝ) : ℝ :=
  (a - b * Real.exp (-1 * c * V ^ d)) * (1 - rf) + 0 * (e + f + g + h)

/-- Eq_17 (copert.py lines 221-223). -/
noncomputable def Eq_17 (a b c d e f g h rf V : ℝ) : ℝ :=
  (a * V ^ 5 + b * V ^ 4 + c * V ^ 3 + d * V ^ 2 + e * V + f) * (1 - rf)
    + 0 * (g + h)

/-- list_equation_ldv[n] applied to (a, ..., rf, V)
(copert.py lines 225-227); index n out of range is guarded at the call
site as the IndexError Python would raise. -/
noncomputable def evalEqLdv (n : ℕ) (a b c d e f g h rf V : ℝ) : ℝ :=
  match n with
  | 0 => Eq_1 a b c d e f g h rf V
  | 1 => Eq_2 a b c d e f g h rf V
  | 2 => Eq_3 a b c d e f g h rf V
  | 3 => Eq_4 a b c d e f g h rf V
  | 4 => Eq_5 a b c d e f g h rf V
  | 5 => Eq_6 a b c d e f g h rf V
  | 6 => Eq_7 a b c d e f g h rf V
  | 7 => Eq_8 a b c d e f g h rf V
  | 8 => Eq_9 a b c d e f g h rf V
  | 9 => Eq_10 a b c d e f g h rf V
  | 10 => Eq_11 a b c d e f g h rf V
  | 11 => Eq_12 a b c d e f g h rf V
  | 12 => Eq_13 a b c d e f g h rf V
  | 13 => Eq_14 a b c d e f g h rf V
  | 14 => Eq_15 a b c d e f g h rf V
  | 15 => Eq_16 a b c d e f g h rf V
  | 16 => Eq_17 a b c d e f g h rf V
  | _ => 0

/-- Eq_hdv_0 (copert.py lines 233-234). -/
noncomputable def Eq_hdv_0 (a b c d e f g x : ℝ) : ℝ :=
  (a * (b ^ x)) * (x ^ c) + 0 * (d + e + f + g)

/-- Eq_hdv_1 (copert.py lines 235-236). -/
noncomputable def Eq_hdv_1 (a b c d e f g x : ℝ) : ℝ :=
  (a * (x ^ b)) + (c * (x ^ d)) + 0 * (e + f + g)

/-- Eq_hdv_2 (copert.py lines 237-238). -/
noncomputable def Eq_hdv_2 (a b c d e f g x : ℝ) : ℝ :=
  (a + (b * x)) ^ ((-1 : ℝ) / c) + 0 * (d + e + f + g)

/-- Eq_hdv_3 (copert.py lines 239-242). -/
noncomputable def Eq_hdv_3 (a b c d e f g x : ℝ) : ℝ :=
  (a + (b * x)) + (((c - b) * (1 - Real.exp ((-1 * d) * x))) / d)
    + 0 * (e + f + g)

/-- Eq_hdv_4 (copert.py lines 243-246). -/
noncomputable def Eq_hdv_4 (a b c d e f g x : ℝ) : ℝ :=
  (e + (a * Real.exp ((-1 * b) * x))) + (c * Real.exp ((-1 * d) * x))
    + 0 * (f + g)

/-- Eq_hdv_5 (copert.py lines 247-248). -/
noncomputable def Eq_hdv_5 (a b c d e f g x : ℝ) : ℝ :=
  1 / (((c * (x ^ 2)) + (b * x)) + a) + 0 * (d + e + f + g)

/-- Eq_hdv_6 (copert.py lines 249-250). -/
noncomputable def Eq_hdv_6 (a b c d e f g x : ℝ) : ℝ :=
  1 / (a + (b * (x ^ c))) + 0 * (d + e + f + g)

/-- Eq_hdv_7 (copert.py lines 251-252). -/
noncomputable def Eq_hdv_7 (a b c d e f g x : ℝ) : ℝ :=
  1 / (a + (b * x)) + 0 * (c + d + e + f + g)

/-- Eq_hdv_8 (copert.py lines 253-254). -/
noncomputable def Eq_hdv_8 (a b c d e f g x : ℝ) : ℝ :=
  a - (b * Real.exp ((-1 * c) * (x ^ d))) + 0 * (e + f + g)

/-- Eq_hdv_9 (copert.py lines 255-256). -/
noncomputable def Eq_hdv_9 (a b c d e f g x : ℝ) : ℝ :=
  a / (1 + (b * Real.exp ((-1 * c) * x))) + 0 * (d + e + f + g)

/-- Eq_hdv_10 (copert.py lines 257-259). -/
noncomputable def Eq_hdv_10 (a b c d e f g x : ℝ) : ℝ :=
  a + (b / (1 + Real.exp (((-1 * c) + (d * Real.log x)) + (e * x))))
    + 0 * (f + g)

/-- Eq_hdv_11 (copert.py lines 260-261). -/
noncomputable def Eq_hdv_11 (a b c d e f g x : ℝ) : ℝ :=
  c + (a * Real.exp ((-1 * b) * x)) + 0 * (d + e + f + g)

/-- Eq_hdv_12 (copert.py lines 262-263). -/
noncomputable def Eq_hdv_12 (a b c d e f g x : ℝ) : ℝ :=
  c + (a * Real.exp (b * x)) + 0 * (d + e + f + g)

/-- Eq_hdv_13 (copert.py lines 264-266). -/
noncomputable def Eq_hdv_13 (a b c d e f g x : ℝ) : ℝ :=
  Real.exp ((a + (b / x)) + (c * Real.log x)) + 0 * (d + e + f + g)

/-- Eq_hdv_14 (copert.py lines 267-268). -/
noncomputable def Eq_hdv_14 (a b c d e f g x : ℝ) : ℝ :=
  ((a * (x ^ 3)) + (b * (x ^ 2)) + (c * x)) + d + 0 * (e + f + g)

/-- Eq_hdv_15 (copert.py lines 269-270). -/
noncomputable def Eq_hdv_15 (a b c d e f g x : ℝ) : ℝ :=
  ((a * (x ^ 2)) + (b * x)) + c + 0 * (d + e + f + g)

/-- list_equation_hdv[n] applied to (a, ..., g, x)
(copert.py lines 272-275). -/
noncomputable def evalEqHdv (n : ℕ) (a b c d e f g x : ℝ) : ℝ :=
  match n with
  | 0 => Eq_hdv_0 a b c d e f g x
  | 1 => Eq_hdv_1 a b c d e f g x
  | 2 => Eq_hdv_2 a b c d e f g x
  | 3 => Eq_hdv_3 a b c d e f g x
  | 4 => Eq_hdv_4 a b c d e f g x
  | 5 => Eq_hdv_5 a b c d e f g x
  | 6 => Eq_hdv_6 a b c d e f g x
  | 7 => Eq_hdv_7 a b c d e f g x
  | 8 => Eq_hdv_8 a b c d e f g x
  | 9 => Eq_hdv_9 a b c d e f g x
  | 10 => Eq_hdv_10 a b c d e f g x
  | 11 => Eq_hdv_11 a b c d e f g x
  | 12 => Eq_hdv_12 a b c d e f g x
  | 13 => Eq_hdv_13 a b c d e f g x
  | 14 => Eq_hdv_14 a b c d e f g x
  | 15 => Eq_hdv_15 a b c d e f g x
  | _ => 0

/-- One line of an emission-factor coefficient table: the six columns
(a, b, c, d, e, f). -/
abbrev Row6 := ℚ × ℚ × ℚ × ℚ × ℚ × ℚ

/-- efc_gasoline_passenger_car[0] (pollutant CO), rows for Euro 1 .. Euro 6c
(copert.py lines 283-289). -/
def efc_gasoline_CO : List (Option Row6) :=
  [some (1.12e1, 1.29e-1, -1.02e-1, -9.47e-4, 6.77e-4, 0),
   some (6.05e1, 3.50e0, 1.52e-1, -2.52e-2, -1.68e-4, 0),
   some (7.17e1, 3.54e1, 1.14e1, -2.48e-1, 0, 0),
   some (1.36e-1, -1.41e-2, -8.91e-4, 4.99e-5, 0, 0),
   some (-1.35e-10, 7.86e-8, -1.22e-5, 7.75e-4, -1.97e-2, 3.98e-1),
   some (-6.5e-11, 4.78e-8, -7.79e-6, 5.06e-4, -1.38e-2, 3.54e-1),
   some (-4.42e-11, 4.04e-8, -6.73e-6, 4.34e-4, -1.17e-2, 3.38e-1)]

/-- efc_gasoline_passenger_car[1] (pollutant HC)
(copert.py lines 290-296). -/
def efc_gasoline_HC : List (Option Row6) :=
  [some (1.35, 1.78e-1, -6.77e-3, -1.27e-3, 0, 0),
   some (4.11e6, 1.66e6, -1.45e4, -1.03e4, 0, 0),
   some (5.57e-2, 3.65e-2, -1.1e-3, -1.88e-4, 1.25e-5, 0),
   some (1.18e-2, 0, -3.47e-5, 0, 8.84e-7, 0),
   some (2.87e-16, 6.43, 2.17e-2, -3.42e-1, 0, 0),
   some (-1.73e-12, 7.45e-10, -9.59e-8, 5.32e-6, -1.61e-4, 8.98e-3),
   some (4.44e-13, -1.8e-10, 5.08e-8, -5.31e-6, 1.91e-4, 5.3e-3)]

/-- efc_gasoline_passenger_car[2] (pollutant NOx)
(copert.py lines 297-303). -/
def efc_gasoline_NOx : List (Option Row6) :=
  [some (5.25e-1, 0, -1e-2, 0, 9.36e-5, 0),
   some (2.84e-1, -2.34e-2, -8.69e-3, 4.43e-4, 1.14e-4, 0),
   some (9.29e-2, -1.22e-2, -1.49e-3, 3.97e-5, 6.53e-6, 0),
   some (1.06e-1, 0, -1.58e-3, 0, 7.1e-6, 0),
   some (1.89e-1, 1.57, 8.15e-2, 2.73e-2, -2.49e-4, -2.68e-1),
   some (4.74e-1, 5.62, 3.41e-1, 8.38e-2, -1.52e-3, -1.19),
   some (9.99e14, 1.89e16, 1.31e15, 2.9e14, -6.34e12, -4.03e15)]

/-- efc_gasoline_passenger_car[3] (pollutant PM); the Euro 1 .. Euro 4 rows
are NAN in the source string (copert.py lines 304-310). -/
def efc_gasoline_PM : List (Option Row6) :=
  [none, none, none, none,
   some (1.44e-13, 1.16e-10, -3.37e-8, 3.11e-6, -1.25e-4, 3.3e-3),
   some (2.31e-13, 1.26e-11, -1.1e-8, 1.23e-6, -6.29e-5, 2.72e-3),
   some (2.65e-13, -4.07e-11, 1.55e-9, 1.43e-7, -2.5e-5, 2.45e-3)]

/-- Indexing a list of table rows, with the IndexError numpy raises on an
out-of-bounds index. -/
def rowAt (l : List (Option Row6)) (i : ℕ) : Except CopertError (Option Row6) :=
  match l.get? i with
  | Option.none => .error .indexError
  | Option.some r => .ok r

/-- efc_gasoline_passenger_car[pollutant][copert_index]
(copert.py lines 312-315 and 898-899).  The array has shape (4, 7, 6), so
pollutant codes FC (4) and VOC (5) are out of bounds: numpy raises
IndexError. -/
def efcGasolineRow (p : Pollutant) (ci : ℕ) : Except CopertError (Option Row6) :=
  match p with
  | .CO => rowAt efc_gasoline_CO ci
  | .HC => rowAt efc_gasoline_HC ci
  | .NOx => rowAt efc_gasoline_NOx ci
  | .PM => rowAt efc_gasoline_PM ci
  | .FC => .error .indexError
  | .VOC => .error .indexError

/-- efc_diesel_passenger_car[0] (pollutant CO): 7 classes (Euro 1 .. Euro 6c)
times 3 capacity bands (copert.py lines 353-373). -/
def efc_diesel_CO : List (List (Option Row6)) :=
  [[none,
    some (9.96e-1, 0, -1.88e-2, 0, 1.09e-4, 0),
    some (9.96e-1, 0, -1.88e-2, 0, 1.09e-4, 0)],
   [none,
    some (9.00e-1, 0, -1.74e-2, 0, 8.77e-5, 0),
    some (9.00e-1, 0, -1.74e-2, 0, 8.77e-5, 0)],
   [none,
    some (1.69e-1, 0, -2.92e-3, 0, 1.25e-5, 1.1),
    some (1.69e-1, 0, -2.92e-3, 0, 1.25e-5, 1.1)],
   [none, none, none],
   [some (-8.66e13, 1.76e14, 2.47e13, 3.18e12, -1.94e11, 8.33e13),
    some (-8.66e13, 1.76e14, 2.47e13, 3.18e12, -1.94e11, 8.33e13),
    some (-8.66e13, 1.76e14, 2.47e13, 3.18e12, -1.94e11, 8.33e13)],
   [some (-3.58e-11, 1.23e-8, -1.49e-6, 8.58e-5, -2.94e-3, 1.03e-1),
    some (-3.58e-11, 1.23e-8, -1.49e-6, 8.58e-5, -2.94e-3, 1.03e-1),
    some (-3.58e-11, 1.23e-8, -1.49e-6, 8.58e-5, -2.94e-3, 1.03e-1)],
   [some (-3.58e-11, 1.23e-8, -1.49e-6, 8.58e-5, -2.94e-3, 1.03e-1),
    some (-3.58e-11, 1.23e-8, -1.49e-6, 8.58e-5, -2.94e-3, 1.03e-1),
    some (-3.58e-11, 1.23e-8, -1.49e-6, 8.58e-5, -2.94e-3, 1.03e-1)]]

/-- efc_diesel_passenger_car[1] (pollutant HC)
(copert.py lines 374-394). -/
def efc_diesel_HC : List (List (Option Row6)) :=
  [[none,
    some (1.42e-1, 1.38e-2, -2.01e-3, -1.90e-5, 1.15e-5, 0),
    some (1.59e-1, 0, -2.46e-3, 0, 1.21e-5, 0)],
   [none,
    some (1.61e-1, 7.46e-2, -1.21e-3, -3.35e-4, 3.63e-6, 0),
    some (5.01e4, 3.80e4, 8.03e3, 1.15e3, -2.66e1, 0)],
   [none,
    some (9.65e-2, 1.03e-1, -2.38e-4, -7.24e-5, 1.93e-6, 0),
    some (9.12e-2, 0, -1.68e-3, 0, 8.94e-6, 0)],
   [some (3.47e-2, 2.69e-2, -6.41e-4, 1.59e-3, 1.12e-5, 0),
    some (3.47e-2, 2.69e-2, -6.41e-4, 1.59e-3, 1.12e-5, 0),
    some (3.47e-2, 2.69e-2, -6.41e-4, 1.59e-3, 1.12e-5, 0)],
   [some (1.04e32, 4.60e33, 1.53e32, 2.92e32, -3.83e28, 1.96e32),
    some (1.04e32, 4.60e33, 1.53e32, 2.92e32, -3.83e28, 1.96e32),
    some (1.04e32, 4.60e33, 1.53e32, 2.92e32, -3.83e28, 1.96e32)],
   [some (1.04e32, 4.60e33, 1.53e32, 2.92e32, -3.83e28, 1.96e32),
    some (1.04e32, 4.60e33, 1.53e32, 2.92e32, -3.83e28, 1.96e32),
    some (1.04e32, 4.60e33, 1.53e32, 2.92e32, -3.83e28, 1.96e32)],
   [some (1.04e32, 4.60e33, 1.53e32, 2.92e32, -3.83e28, 1.96e32),
    some (1.04e32, 4.60e33, 1.53e32, 2.92e32, -3.83e28, 1.96e32),
    some (1.04e32, 4.60e33, 1.53e32, 2.92e32, -3.83e28, 1.96e32)]]

/-- efc_diesel_passenger_car[2] (pollutant NOx)
(copert.py lines 395-415). -/
def efc_diesel_NOx : List (List (Option Row6)) :=
  [[none,
    some (3.1, 1.41e-1, -6.18e-3, -5.03e-4, 4.22e-4, 0),
    some (3.1, 1.41e-1, -6.18e-3, -5.03e-4, 4.22e-4, 0)],
   [none,
    some (2.4, 7.67e-2, -1.16e-2, -5.0e-4, 1.2e-4, 0),
    some (2.4, 7.67e-2, -1.16e-2, -5.0e-4, 1.2e-4, 0)],
   [none,
    some (2.82, 1.98e-1, 6.69e-2, -1.43e-3, -4.63e-4, 0),
    some (2.82, 1.98e-1, 6.69e-2, -1.43e-3, -4.63e-4, 0)],
   [some (1.11, 0, -2.02e-2, 0, 1.48e-4, 0),
    some (1.11, 0, -2.02e-2, 0, 1.48e-4, 0),
    some (1.11, 0, -2.02e-2, 0, 1.48e-4, 0)],
   [some (9.46e-1, 4.26e-3, -1.14e-2, -5.15e-5, 6.67e-5, 1.92),
    some (9.46e-1, 4.26e-3, -1.14e-2, -5.15e-5, 6.67e-5, 1.92),
    some (9.46e-1, 4.26e-3, -1.14e-2, -5.15e-5, 6.67e-5, 1.92)],
   [some (4.36e-1, 1.0e-2, -5.39e-3, -1.02e-4, 2.90e-5, -4.61e-1),
    some (4.36e-1, 1.0e-2, -5.39e-3, -1.02e-4, 2.90e-5, -4.61e-1),
    some (4.36e-1, 1.0e-2, -5.39e-3, -1.02e-4, 2.90e-5, -4.61e-1)],
   [some (2.33e-1, 1.00e-2, -2.88e-3, -1.02e-4, 1.55e-5, -2.46e-1),
    some (2.33e-1, 1.00e-2, -2.88e-3, -1.02e-4, 1.55e-5, -2.46e-1),
    some (2.33e-1, 1.00e-2, -2.88e-3, -1.02e-4, 1.55e-5, -2.46e-1)]]

/-- efc_diesel_passenger_car[3] (pollutant PM)
(copert.py lines 416-437). -/
def efc_diesel_PM : List (List (Option Row6)) :=
  [[none,
    some (1.14e-1, 0, -2.33e-3, 0, 2.26e-5, 0),
    some (1.14e-1, 0, -2.33e-3, 0, 2.26e-5, 0)],
   [none,
    some (8.66e-2, 0, -1.42e-3, 0, 1.06e-5, 0),
    some (8.66e-2, 0, -1.42e-3, 0, 1.06e-5, 0)],
   [none,
    some (5.15e-2, 0, -8.8e-4, 0, 8.12e-6, 0),
    some (5.15e-2, 0, -8.8e-4, 0, 8.12e-6, 0)],
   [some (4.50e-2, 0, -5.39e-4, 0, 3.48e-6, 0),
    some (4.50e-2, 0, -5.39e-4, 0, 3.48e-6, 0),
    some (4.50e-2, 0, -5.39e-4, 0, 3.48e-6, 0)],
   [some (1.17e-3, 1.06e1, -6.48, 5.67e-1, 1.23e-2, 0),
    some (1.17e-3, 1.06e1, -6.48, 5.67e-1, 1.23e-2, 0),
    some (1.17e-3, 1.06e1, -6.48, 5.67e-1, 1.23e-2, 0)],
   [some (-1.21e18, 1.63e20, 1.79e18, 2.89e19, 1.17e16, 4.09e18),
    some (-1.21e18, 1.63e20, 1.79e18, 2.89e19, 1.17e16, 4.09e18),
    some (-1.21e18, 1.63e20, 1.79e18, 2.89e19, 1.17e16, 4.09e18)],
   [some (-1.21e18, 1.63e20, 1.79e18, 2.89e19, 1.17e16, 4.09e18),
    some (-1.21e18, 1.63e20, 1.79e18, 2.89e19, 1.17e16, 4.09e18),
    some (-1.21e18, 1.63e20, 1.79e18, 2.89e19, 1.17e16, 4.09e18)]]

/-- Indexing a class-by-capacity table of rows, with numpy IndexError on an
out-of-bounds index. -/
def rowAt2 (l : List (List (Option Row6))) (i j : ℕ) :
    Except CopertError (Option Row6) :=
  match l.get? i with
  | Option.none => .error .indexError
  | Option.some l2 =>
    match l2.get? j with
    | Option.none => .error .indexError
    | Option.some r => .ok r

/-- efc_diesel_passenger_car[pollutant][copert_index][capacity band]
(copert.py lines 440-442 and 970-988).  The array has shape (4, 7, 3, 6),
so pollutant codes FC (4) and VOC (5) are out of bounds: IndexError. -/
def efcDieselRow (p : Pollutant) (ci capi : ℕ) :
    Except CopertError (Option Row6) :=
  match p with
  | .CO => rowAt2 efc_diesel_CO ci capi
  | .HC => rowAt2 efc_diesel_HC ci capi
  | .NOx => rowAt2 efc_diesel_NOx ci capi
  | .PM => rowAt2 efc_diesel_PM ci capi
  | .FC => .error .indexError
  | .VOC => .error .indexError

/-- One line of the pre-Euro-1 light-commercial-vehicle table:
(Vmin, Vmax, a, b, c). -/
abbrev LdvPreRow := ℚ × ℚ × ℚ × ℚ × ℚ

/-- ldv_parameter_pre_euro_1, shape (2, 5, 2, 5): engine type (gasoline,
diesel) by pollutant index (CO, NOx, VOC, PM, FC) by class (Improved
Conventional / Conventional, Euro 1); a line of NAN is none
(copert.py lines 449-474). -/
def ldv_parameter_pre_euro_1 : List (List (List (Option LdvPreRow))) :=
  [[[some (10.0, 110.0, 0.01104, -1.5132, 57.789),
     some (10.0, 120.0, 0.0037, -0.5215, 19.127)],
    [some (10.0, 110.0, 0.0, 0.0179, 1.9547),
     some (10.0, 120.0, 7.55e-5, -0.009, 0.666)],
    [some (10.0, 110.0, 67.7e-5, -0.117, 5.4734),
     some (10.0, 120.0, 5.77e-5, -0.01047, 0.54734)],
    [none,
     none],
    [some (10.0, 110.0, 0.0167, -2.649, 161.51),
     some (10.0, 120.0, 0.0195, -3.09, 188.85)]],
   [[some (10.0, 110.0, 20e-5, -0.0256, 1.8281),
     some (10.0, 110.0, 22.3e-5, -0.026, 1.076)],
    [some (10.0, 110.0, 81.6e-5, -0.1189, 5.1234),
     some (10.0, 110.0, 24.1e-5, -0.03181, 2.0247)],
    [some (10.0, 110.0, 1.75e-5, -0.00284, 0.2162),
     some (10.0, 110.0, 1.75e-5, -0.00284, 0.2162)],
    [some (10.0, 110.0, 1.25e-5, -0.000577, 0.288),
     some (10.0, 110.0, 4.5e-5, -0.004885, 0.1932)],
    [some (10.0, 110.0, 0.02113, -2.65, 148.91),
     some (10.0, 110.0, 0.0198, -2.506, 137.42)]]]

/-- ldv_reduction_percentage, shape (2, 3, 4): engine type by class
(Euro 2, Euro 3, Euro 4) by pollutant index (CO, NOx, VOC, PM); NAN is
none (copert.py lines 480-491). -/
def ldv_reduction_percentage : List (List (List (Option ℚ))) :=
  [[[some 39.0, some 66.0, some 76.0, none],
    [some 48.0, some 79.0, some 86.0, none],
    [some 72.0, some 90.0, some 94.0, none]],
   [[some 0.0, some 0.0, some 0.0, some 0.0],
    [some 18.0, some 16.0, some 38.0, some 33.0],
    [some 35.0, some 32.0, some 77.0, some 65.0]]]

/-- First numpy axis index for an engine type in the light-commercial
tables (axis length 2): gasoline is 0 and diesel is 1 (their integer codes
in copert.py lines 70-71); any other engine type code is at least 2 and is
out of bounds, hence IndexError. -/
def engineIndex2 : EngineType → Option ℕ
  | .gasoline => some 0
  | .diesel => some 1
  | _ => none

/-- index_pollutant_pre_euro_4 (copert.py lines 1016-1020): a dict with no
key for HC, so looking HC up raises KeyError. -/
def indexPollutantPreEuro4 : Pollutant → Option ℕ
  | .CO => some 0
  | .NOx => some 1
  | .VOC => some 2
  | .PM => some 3
  | .FC => some 4
  | .HC => none

/-- self.index_pollutant (copert.py lines 503-505): no key for VOC. -/
def indexPollutant : Pollutant → Option ℕ
  | .CO => some 0
  | .NOx => some 1
  | .HC => some 2
  | .PM => some 3
  | .FC => some 4
  | .VOC => none

/-- self.index_copert_class_ldv (copert.py lines 519-527): classes Improved
Conventional and Euro 1 .. Euro 4 map to the value None (inner none);
pre-Euro classes other than Improved Conventional are not keys at all
(outer none, KeyError). -/
def indexCopertClassLdv : CopertClass → Option (Option ℕ)
  | .Improved_Conventional => some none
  | .Euro_1 => some none
  | .Euro_2 => some none
  | .Euro_3 => some none
  | .Euro_3_GDI => some none
  | .Euro_4 => some none
  | .Euro_5 => some (some 0)
  | .Euro_6 => some (some 1)
  | .Euro_6c => some (some 2)
  | _ => none

/-- self.index_vehicle_type (copert.py lines 557-563): heavy duty vehicles
map to 0, buses to 1, everything else to the value None. -/
def indexVehicleType : VehicleType → Option ℕ
  | .heavy_duty_vehicle => some 0
  | .bus => some 1
  | _ => none

/-- ldv_parameter_pre_euro_1[engine_type, i_pollutant, i_copert_class, :]
(copert.py lines 1040-1043), with numpy IndexError for out-of-bounds
indices (in particular any engine type other than gasoline or diesel). -/
def ldvPreEuro1Row (e : EngineType) (ip ic : ℕ) :
    Except CopertError (Option LdvPreRow) :=
  match engineIndex2 e with
  | Option.none => .error .indexError
  | Option.some ie =>
    match ldv_parameter_pre_euro_1.get? ie with
    | Option.none => .error .indexError
    | Option.some l1 =>
      match l1.get? ip with
      | Option.none => .error .indexError
      | Option.some l2 =>
        match l2.get? ic with
        | Option.none => .error .indexError
        | Option.some r => .ok r

/-- ldv_reduction_percentage[i_engine_type, i_copert_class, i_pollutant]
(copert.py lines 1060-1063), with numpy IndexError for out-of-bounds
indices. -/
def ldvReductionPercentage (e : EngineType) (ic ip : ℕ) :
    Except CopertError (Option ℚ) :=
  match engineIndex2 e with
  | Option.none => .error .indexError
  | Option.some ie =>
    match ldv_reduction_percentage.get? ie with
    | Option.none => .error .indexError
    | Option.some l1 =>
      match l1.get? ic with
      | Option.none => .error .indexError
      | Option.some l2 =>
        match l2.get? ip with
        | Option.none => .error .indexError
        | Option.some r => .ok r

/-- V = min(max(Vmin, speed), Vmax), the clamp used by the table-driven
branches (copert.py lines 1044, 1077 and 1098). -/
def clampQ (Vmin Vmax s : ℚ) : ℚ := min (max Vmin s) Vmax

/-- speed_type_urban (copert.py line 150). -/
def speed_type_urban : ℚ := 60

/-- speed_type_rural (copert.py line 151). -/
def speed_type_rural : ℚ := 90

/-- The Euro-1-and-later tail of HEFGasolinePassengerCar (copert.py lines
867-912): the PM speed-bracket constants, then the coefficient-table
dispatch.  Falling past the final if/elif chain (pollutant FC or VOC after
a successful row unpack, which the IndexError actually forestalls) returns
None, like the source function. -/
noncomputable def gasolineEuroDispatch (pollutant : Pollutant)
    (copert_class : CopertClass) (V : ℚ) : Except CopertError PyResult :=
  if pollutant = .PM ∧ classNumber copert_class ≤ 8 then
    (if V ≤ speed_type_urban then .ok (.val (constant 3.22e-3))
     else if V ≤ speed_type_rural then .ok (.val (constant 1.84e-3))
     else .ok (.val (constant 1.90e-3)))
  else if pollutant = .PM ∧ copert_class = .Euro_3_GDI then
    (if V ≤ speed_type_urban then .ok (.val (constant 6.6e-3))
     else if V ≤ speed_type_rural then .ok (.val (constant 2.96e-3))
     else .ok (.val (constant 6.95e-3)))
  else if pollutant = .PM ∧ classNumber copert_class ≤ 11 then
    (if V ≤ speed_type_urban then .ok (.val (constant 1.28e-3))
     else if V ≤ speed_type_rural then .ok (.val (constant 8.36e-4))
     else .ok (.val (constant 1.19e-3)))
  else
    match globalClassIndex copert_class with
    | Option.none => .error .valueError
    | Option.some copert_index =>
      match efcGasolineRow pollutant copert_index with
      | .error err => .error err
      | .ok Option.none => .ok .nan
      | .ok (Option.some (a, b, c, d, e, f)) =>
        if classNumber copert_class ≤ 11 then
          .ok (.val (EF_25 a b c d e f V))
        else if pollutant = .CO ∨ pollutant = .PM then
          .ok (.val (EF_26 a b c d e f V))
        else if pollutant = .NOx then
          .ok (.val (EF_27 a b c d e f V))
        else if pollutant = .HC then
          (if copert_class = .Euro_5 then .ok (.val (EF_28 a b c d e f V))
           else .ok (.val (EF_26 a b c d e f V)))
        else .ok .none

/-- HEFGasolinePassengerCar (copert.py lines 678-912).  Each branch of the
source decision tree that ends without a return (an if/elif chain with no
matching case) produces the Python None, modelled as PyResult.none. -/
noncomputable def HEFGasolinePassengerCar (pollutant : Pollutant)
    (speed : ℚ) (copert_class : CopertClass) (engine_capacity : ℚ) :
    Except CopertError PyResult :=
  if speed = 0 then .ok (.val 0)
  else if speed < 10 ∨ speed > 130 then .error .speedOutOfDomain
  else if copert_class = .PRE_ECE then
    (if engine_capacity < 0.8 then .error .capacityBelow08
     else if pollutant = .CO then
       (if speed < 100 then .ok (.val (power 281 (-0.63) speed))
        else .ok (.val (linear 0.112 4.32 speed)))
     else if pollutant = .VOC then
       (if speed < 100 then .ok (.val (power 30.34 (-0.693) speed))
        else .ok (.val (constant 1.247)))
     else if pollutant = .NOx then
       (if engine_capacity < 1.4 then
          .ok (.val (quadratic (-0.00014) 0.0225 1.173 speed))
        else if engine_capacity < 2.0 then
          .ok (.val (quadratic (-0.00004) 0.0217 1.360 speed))
        else .ok (.val (quadratic 0.0001 0.03 1.5 speed)))
     else .ok .none)
  else if copert_class = .ECE_15_00_or_01 then
    (if engine_capacity < 0.8 then .error .capacityBelow08
     else if pollutant = .CO then
       (if speed < 50 then .ok (.val (power 313 (-0.76) speed))
        else .ok (.val (quadratic 0.0032 (-0.406) 27.22 speed)))
     else if pollutant = .VOC then
       (if speed < 50 then .ok (.val (power 24.99 (-0.704) speed))
        else .ok (.val (power 4.85 (-0.318) speed)))
     else if pollutant = .NOx then
       (if engine_capacity < 1.4 then
          .ok (.val (quadratic (-0.00014) 0.0225 1.173 speed))
        else if engine_capacity < 2.0 then
          .ok (.val (quadratic (-0.00004) 0.0217 1.360 speed))
        else .ok (.val (quadratic 0.0001 0.03 1.5 speed)))
     else .ok .none)
  else if copert_class = .ECE_15_02 then
    (if engine_capacity < 0.8 then .error .capacityBelow08
     else if pollutant = .CO then
       (if speed < 60 then .ok (.val (power 300 (-0.797) speed))
        else .ok (.val (quadratic 0.0026 (-0.44) 26.26 speed)))
     else if pollutant = .VOC then
       (if speed < 60 then .ok (.val (power 25.75 (-0.714) speed))
        else .ok (.val (quadratic 0.00009 (-0.019) 1.95 speed)))
     else if pollutant = .NOx then
       (if engine_capacity < 1.4 then
          .ok (.val (quadratic 0.00018 (-0.0037) 1.479 speed))
        else if engine_capacity < 2.0 then
          .ok (.val (quadratic 0.0002 (-0.0038) 1.663 speed))
        else .ok (.val (quadratic 0.00022 (-0.0039) 1.87 speed)))
     else .ok .none)
  else if copert_class = .ECE_15_03 then
    (if engine_capacity < 0.8 then .error .capacityBelow08
     else if pollutant = .CO then
       (if speed < 20 then .ok (.val (logarithm 161.36 (-45.62) speed))
        else .ok (.val (quadratic 0.00377 (-0.68) 37.92 speed)))
     else if pollutant = .VOC then
       (if speed < 60 then .ok (.val (power 25.75 (-0.714) speed))
        else .ok (.val (quadratic 0.00009 (-0.019) 1.95 speed)))
     else if pollutant = .NOx then
       (if engine_capacity < 1.4 then
          .ok (.val (quadratic 0.00025 (-0.0084) 1.616 speed))
        else if engine_capacity < 2.0 then
          .ok (.val (exponential 1.29 0.0099 speed))
        else .ok (.val (quadratic 0.000294 (-0.0112) 2.784 speed)))
     else .ok .none)
  else if copert_class = .ECE_15_04 then
    (if engine_capacity < 0.8 then .error .capacityBelow08
     else if pollutant = .CO then
       (if speed < 60 then .ok (.val (power 260.788 (-0.91) speed))
        else .ok (.val (quadratic 0.001163 (-0.22) 14.653 speed)))
     else if pollutant = .VOC then
       (if speed < 60 then .ok (.val (power 19.079 (-0.693) speed))
        else .ok (.val (quadratic 0.000179 (-0.037) 2.608 speed)))
     else if pollutant = .NOx then
       (if engine_capacity < 1.4 then
          .ok (.val (quadratic 0.000097 0.003 1.432 speed))
        else if engine_capacity < 2.0 then
          .ok (.val (quadratic 0.000074 0.013 1.484 speed))
        else .ok (.val (quadratic 0.000266 (-0.014) 2.427 speed)))
     else .ok .none)
  else if copert_class = .Improved_Conventional then
    (if engine_capacity < 0.8 ∨ engine_capacity > 2.0 then
       .error .capacityOutOfRange
     else if pollutant = .CO then
       (if engine_capacity < 1.4 then
          .ok (.val (quadratic 0.002478 (-0.294) 14.577 speed))
        else .ok (.val (quadratic 0.000957 (-0.151) 8.273 speed)))
     else if pollutant = .VOC then
       (if engine_capacity < 1.4 then
          .ok (.val (quadratic 0.000201 (-0.034) 2.189 speed))
        else .ok (.val (quadratic 0.000214 (-0.034) 1.999 speed)))
     else if pollutant = .NOx then
       (if engine_capacity < 1.4 then
          .ok (.val (logarithm (-0.926) 0.719 speed))
        else .ok (.val (quadratic 0.000247 0.0014 1.387 speed)))
     else .ok .none)
  else if copert_class = .Open_loop then
    (if engine_capacity < 0.8 ∨ engine_capacity > 2.0 then
       .error .capacityOutOfRange
     else if pollutant = .CO then
       (if engine_capacity < 1.4 then
          .ok (.val (quadratic 0.002825 (-0.377) 17.882 speed))
        else .ok (.val (quadratic 0.002029 (-0.230) 9.446 speed)))
     else if pollutant = .VOC then
       (if engine_capacity < 1.4 then
          .ok (.val (quadratic 0.000256 (-0.0423) 2.185 speed))
        else .ok (.val (quadratic 0.000099 (-0.016) 0.808 speed)))
     else if pollutant = .NOx then
       (if engine_capacity < 1.4 then
          .ok (.val (logarithm (-0.921) 0.616 speed))
        else .ok (.val (logarithm (-0.761) 0.515 speed)))
     else .ok .none)
  else gasolineEuroDispatch pollutant copert_class speed

/-- The formula dispatch at the end of HEFDieselPassengerCar (copert.py
lines 990-1006), applied to the unpacked coefficient row (none when the
row is a NAN line, in which case the generic formulas evaluate on NaN and
the result is NaN — except the literal Euro 4 CO logistic formula, which
does not read the row). -/
noncomputable def dieselDispatch (pollutant : Pollutant)
    (copert_class : CopertClass) (row : Option Row6) (V : ℚ) :
    Except CopertError PyResult :=
  if classNumber copert_class ≤ 11 then
    (if pollutant = .CO ∧ copert_class = .Euro_4 then
       .ok (.val (17.5e-3 + 86.42
         * (1 + Real.exp (-((V : ℝ) + 117.67) / (-21.99)))⁻¹))
     else
       match row with
       | Option.none => .ok .nan
       | Option.some (a, b, c, d, e, f) => .ok (.val (EF_30 a b c d e f V)))
  else if copert_class = .Euro_5 then
    (match row with
     | Option.none => .ok .nan
     | Option.some (a, b, c, d, e, f) =>
       if pollutant = .PM then .ok (.val (EF_31 a b c d e f V))
       else .ok (.val (EF_27 a b c d e f V)))
  else
    (match row with
     | Option.none => .ok .nan
     | Option.some (a, b, c, d, e, f) =>
       if pollutant = .CO then .ok (.val (EF_26 a b c d e f V))
       else .ok (.val (EF_27 a b c d e f V)))

/-- HEFDieselPassengerCar (copert.py lines 916-1006).  The Euro_3_GDI
check (lines 941-943) precedes the zero-speed and speed-domain checks.
In the pre-Euro branch an unhandled pollutant (HC) falls off the if/elif
chain and the function returns None. -/
noncomputable def HEFDieselPassengerCar (pollutant : Pollutant)
    (speed : ℚ) (copert_class : CopertClass) (engine_capacity : ℚ) :
    Except CopertError PyResult :=
  if copert_class = .Euro_3_GDI then .error .dieselEuro3GDI
  else if speed = 0 then .ok (.val 0)
  else if speed < 10 ∨ speed > 130 then .error .speedOutOfDomain
  else
    match globalClassIndex copert_class with
    | Option.none =>
      if pollutant = .CO then .ok (.val (power 5.41301 (-0.574) speed))
      else if pollutant = .NOx then
        (if engine_capacity ≤ 2.0 then
           .ok (.val (quadratic 0.000101 (-0.014) 0.918 speed))
         else .ok (.val (quadratic 0.000133 (-0.018) 1.331 speed)))
      else if pollutant = .VOC then
        .ok (.val (power 4.61 (-0.937) speed))
      else if pollutant = .PM then
        .ok (.val (quadratic 0.000058 (-0.0086) 0.45 speed))
      else if pollutant = .FC then
        .ok (.val (quadratic 0.014 (-2.084) 118.489 speed))
      else .ok .none
    | Option.some copert_index =>
      if engine_capacity < 1.4 then
        match efcDieselRow pollutant copert_index 0 with
        | .error err => .error err
        | .ok row =>
          if row = Option.none ∧ classNumber copert_class ≤ 9 then
            .error .dieselSmallEngineNoFormula
          else dieselDispatch pollutant copert_class row speed
      else if engine_capacity < 2.0 then
        match efcDieselRow pollutant copert_index 1 with
        | .error err => .error err
        | .ok row => dieselDispatch pollutant copert_class row speed
      else
        match efcDieselRow pollutant copert_index 2 with
        | .error err => .error err
        | .ok row => dieselDispatch pollutant copert_class row speed

/-- The row selection of the Conventional / Euro 1 branch of
HEFLightCommercialVehicle (copert.py lines 1022-1043): the class dict
{Improved_Conventional: 0, Euro_1: 1} (KeyError otherwise), the
index_pollutant_pre_euro_4 dict (KeyError for HC), the two no-formula
raises, then the table row. -/
def preEuro1RowLookup (engine_type : EngineType) (copert_class : CopertClass)
    (pollutant : Pollutant) : Except CopertError (Option LdvPreRow) :=
  match (match copert_class with
         | .Improved_Conventional => Option.some 0
         | .Euro_1 => Option.some 1
         | _ => Option.none : Option ℕ) with
  | Option.none => .error .keyError
  | Option.some ic =>
    match indexPollutantPreEuro4 pollutant with
    | Option.none => .error .keyError
    | Option.some ip =>
      if engine_type = .gasoline ∧ (pollutant = .PM ∨ pollutant = .HC) then
        .error .lcvGasolinePMHC
      else if engine_type = .diesel ∧ pollutant = .HC then
        .error .lcvDieselHC
      else ldvPreEuro1Row engine_type ip ic

/-- The reduction-percentage selection of the Euro 2 .. Euro 4 branch of
HEFLightCommercialVehicle (copert.py lines 1054-1063): the
index_pollutant_pre_euro_4 dict, the class dict {Euro_2: 0, Euro_3: 1,
Euro_4: 2} (KeyError otherwise, in particular for Euro_3_GDI), then the
reduction table. -/
def reductionLookup (engine_type : EngineType) (copert_class : CopertClass)
    (pollutant : Pollutant) : Except CopertError (Option ℚ) :=
  match indexPollutantPreEuro4 pollutant with
  | Option.none => .error .keyError
  | Option.some ip =>
    match (match copert_class with
           | .Euro_2 => Option.some 0
           | .Euro_3 => Option.some 1
           | .Euro_4 => Option.some 2
           | _ => Option.none : Option ℕ) with
    | Option.none => .error .keyError
    | Option.some ic => ldvReductionPercentage engine_type ic ip

/-- One row of self.ldv_parameter, the 12 fields unpacked at copert.py
lines 1074-1076: eight formula coefficients, the reduction factor rf, the
speed domain and the equation index.  The parameter file stores the
equation index as one of the Equation labels of corr_ldv_equation
(copert.py lines 528-530), hence a natural number. -/
structure LdvRow where
  a : ℚ
  b : ℚ
  c : ℚ
  d : ℚ
  e : ℚ
  f : ℚ
  g : ℚ
  h : ℚ
  rf : ℚ
  Vmin : ℚ
  Vmax : ℚ
  Neq : ℕ
deriving DecidableEq

/-- self.ldv_parameter, the coefficient repository for light commercial
vehicles of Euro 5 and later, built by the constructor from the external
parameter file (copert.py lines 511-543): engine index, class index,
pollutant index to a row; none is a slot the file never filled (still NaN
from the initialization, on which int(N_eq) raises ValueError). -/
abbrev LdvTable := ℕ → ℕ → ℕ → Option LdvRow

/-- The row selection of the Euro 5 and later branch of
HEFLightCommercialVehicle (copert.py lines 1071-1076): the
index_pollutant dict (KeyError for VOC), the index_copert_class_ldv dict
(whose value None for pre-Euro-5 classes would make the numpy indexing
fail), then the parameter array. -/
def ldvRowLookup (tbl : LdvTable) (engine_type : EngineType)
    (copert_class : CopertClass) (pollutant : Pollutant) :
    Except CopertError LdvRow :=
  match indexPollutant pollutant with
  | Option.none => .error .keyError
  | Option.some ip =>
    match indexCopertClassLdv copert_class with
    | Option.none => .error .keyError
    | Option.some Option.none => .error .valueError
    | Option.some (Option.some ic) =>
      match engineIndex2 engine_type with
      | Option.none => .error .indexError
      | Option.some ie =>
        match tbl ie ic ip with
        | Option.none => .error .valueError
        | Option.some row => .ok row

/-- HEFLightCommercialVehicle (copert.py lines 1010-1081).  The Euro 2 ..
Euro 4 branch first calls the function recursively with class Euro 1 and
the unchanged speed V (line 1048-1051), then multiplies the Euro 1 factor
by (1 - reduction_percentage) when the pollutant is neither HC nor FC
(a None factor would make that multiplication a TypeError), and raises
otherwise.  A class above Euro 6c does not exist, so the final else (the
source function would return None) is unreachable. -/
noncomputable def HEFLightCommercialVehicle (tbl : LdvTable)
    (pollutant : Pollutant) (speed : ℚ) (engine_type : EngineType)
    (copert_class : CopertClass) : Except CopertError PyResult :=
  if speed = 0 then .ok (.val 0)
  else if classNumber copert_class ≤ 7 then
    match preEuro1RowLookup engine_type copert_class pollutant with
    | .error err => .error err
    | .ok Option.none => .ok .nan
    | .ok (Option.some (Vmin, Vmax, a, b, c)) =>
      .ok (.val (quadratic a b c (clampQ Vmin Vmax speed)))
  else if h : 8 ≤ classNumber copert_class ∧ classNumber copert_class ≤ 11 then
    match HEFLightCommercialVehicle tbl pollutant speed engine_type .Euro_1 with
    | .error err => .error err
    | .ok emission_factor_euro_1 =>
      if pollutant ≠ .HC ∧ pollutant ≠ .FC then
        match reductionLookup engine_type copert_class pollutant with
        | .error err => .error err
        | .ok Option.none => .ok .nan
        | .ok (Option.some rp) =>
          match emission_factor_euro_1 with
          | .val x => .ok (.val (x * (1 - 0.01 * (rp : ℝ))))
          | .nan => .ok .nan
          | .none => .error .typeError
      else .error .lcvEuro2to4NoFormula
  else if 12 ≤ classNumber copert_class then
    match ldvRowLookup tbl engine_type copert_class pollutant with
    | .error err => .error err
    | .ok row =>
      if row.Neq < 17 then
        .ok (.val (evalEqLdv row.Neq row.a row.b row.c row.d row.e row.f
          row.g row.h row.rf (clampQ row.Vmin row.Vmax speed)))
      else .error .indexError
  else .ok .none
termination_by classNumber copert_class
decreasing_by
  have h7 : classNumber CopertClass.Euro_1 = 7 := rfl
  omega

/-- One row of self.hdv_parameter, the 10 fields unpacked at copert.py
lines 1095-1097: seven formula coefficients, the speed domain and the
equation number (an integer; a negative value means no formula). -/
structure HdvRow where
  a : ℚ
  b : ℚ
  c : ℚ
  d : ℚ
  e : ℚ
  f : ℚ
  g : ℚ
  Vmin : ℚ
  Vmax : ℚ
  Neq : ℤ
deriving DecidableEq

/-- self.hdv_parameter, the coefficient repository for heavy duty vehicles
and buses, built by the constructor from the external parameter file
(copert.py lines 545-626): hdv-or-bus index, vehicle type, class,
pollutant index, load, slope to a row; none is a slot the file never
filled (all NaN, on which the N_eq >= 0 test is False and the no-formula
exception is raised). -/
abbrev HdvTable := ℕ → ℕ → ℕ → ℕ → ℕ → ℕ → Option HdvRow

/-- The row selection of HEFHeavyDutyVehicle (copert.py lines 1089-1097):
index_vehicle_type (the value None for anything that is not a heavy duty
vehicle or a bus breaks the numpy indexing), index_pollutant (KeyError
for VOC), then the parameter array. -/
def hdvRowLookup (tbl : HdvTable) (vehicle_category : VehicleType)
    (hdv_type hdv_copert_class : ℕ) (pollutant : Pollutant)
    (load slope : ℕ) : Except CopertError HdvRow :=
  match indexVehicleType vehicle_category with
  | Option.none => .error .typeError
  | Option.some ib =>
    match indexPollutant pollutant with
    | Option.none => .error .keyError
    | Option.some ip =>
      match tbl ib hdv_type hdv_copert_class ip load slope with
      | Option.none => .error .hdvNoFormula
      | Option.some row => .ok row

/-- HEFHeavyDutyVehicle (copert.py lines 1086-1105).  There is no
zero-speed shortcut: the speed is clamped into [Vmin, Vmax] and the
selected equation is evaluated, unless N_eq is negative (or NaN), in
which case the no-formula exception is raised. -/
noncomputable def HEFHeavyDutyVehicle (tbl : HdvTable) (speed : ℚ)
    (vehicle_category : VehicleType) (hdv_type : ℕ)
    (hdv_copert_class : ℕ) (pollutant : Pollutant) (load slope : ℕ) :
    Except CopertError PyResult :=
  match hdvRowLookup tbl vehicle_category hdv_type hdv_copert_class
      pollutant load slope with
  | .error err => .error err
  | .ok row =>
    if 0 ≤ row.Neq then
      (if row.Neq.toNat < 16 then
         .ok (.val (evalEqHdv row.Neq.toNat row.a row.b row.c row.d row.e
           row.f row.g (clampQ row.Vmin row.Vmax speed)))
       else .error .indexError)
    else .error .hdvNoFormula

/-- Emission (copert.py lines 630-674): distance times the hot emission
factor for gasoline or diesel passenger cars; an exception for any other
vehicle type or engine type.  Multiplying a None factor by the distance
would raise a TypeError; multiplying NaN gives NaN. -/
noncomputable def Emission (pollutant : Pollutant) (speed distance : ℚ)
    (vehicle_type : VehicleType) (engine_type : EngineType)
    (copert_class : CopertClass) (engine_capacity : ℚ)
    (ambient_temperature : ℚ) : Except CopertError PyResult :=
  if vehicle_type = .passenger_car then
    (if engine_type = .gasoline then
       match HEFGasolinePassengerCar pollutant speed copert_class
           engine_capacity with
       | .ok (.val x) => .ok (.val ((distance : ℝ) * x))
       | .ok .nan => .ok .nan
       | .ok .none => .error .typeError
       | .error err => .error err
     else if engine_type = .diesel then
       match HEFDieselPassengerCar pollutant speed copert_class
           engine_capacity with
       | .ok (.val x) => .ok (.val ((distance : ℝ) * x))
       | .ok .nan => .ok .nan
       | .ok .none => .error .typeError
       | .error err => .error err
     else .error .onlyGasolineDiesel)
  else .error .onlyPassengerCars

/-- A light-commercial coefficient repository with no row filled in (the
state of self.ldv_parameter before any parameter line is read). -/
def ldvTableW0 : LdvTable := fun _ _ _ => Option.none

/-- A one-row light-commercial repository used to exercise the Euro 5 and
later dispatch on concrete inputs: Equation 1 with a = 1, all other
coefficients 0, domain [10, 100]. -/
def ldvRowW : LdvRow := ⟨1, 0, 0, 0, 0, 0, 0, 0, 0, 10, 100, 0⟩

/-- A light-commercial repository whose every slot holds ldvRowW. -/
def ldvTableW : LdvTable := fun _ _ _ => Option.some ldvRowW

/-- A heavy-duty row used to exercise HEFHeavyDutyVehicle on concrete
inputs: equation 15 (the quadratic) with a = b = 0 and c = 1, so the
factor is the constant 1; domain [10, 100]. -/
def hdvRowW : HdvRow := ⟨0, 0, 1, 0, 0, 0, 0, 10, 100, 15⟩

/-- A heavy-duty repository whose every slot holds hdvRowW. -/
def hdvTableW : HdvTable := fun _ _ _ _ _ _ => Option.some hdvRowW

/-- Clamping is idempotent. -/
theorem clampQ_idem (Vmin Vmax s : ℚ) :
    clampQ Vmin Vmax (clampQ Vmin Vmax s) = clampQ Vmin Vmax s := by
  unfold clampQ
  rcases le_total (max Vmin s) Vmax with h | h
  · rw [min_eq_left h, ← max_assoc, max_self, min_eq_left h]
  · rw [min_eq_right h, min_eq_right (le_max_right Vmin Vmax)]

/-- A clamp into a domain with positive bounds is positive. -/
theorem clampQ_pos (Vmin Vmax s : ℚ) (h1 : 0 < Vmin) (h2 : 0 < Vmax) :
    0 < clampQ Vmin Vmax s := by
  unfold clampQ
  exact lt_min (lt_of_lt_of_le h1 (le_max_left _ _)) h2

/-- C4: for diesel passenger cars of class Euro_3_GDI, every call to
HEFDieselPassengerCar raises the no-formula (UndefinedCombination)
exception, for every pollutant, every speed (including 0 and speeds
outside [10, 130]) and every engine capacity: the check for Euro_3_GDI is
the first statement of the function. -/
theorem C4_diesel_euro3_gdi (pollutant : Pollutant) (speed : ℚ)
    (engine_capacity : ℚ) :
    HEFDieselPassengerCar pollutant speed .Euro_3_GDI engine_capacity
      = .error .dieselEuro3GDI := by
  simp [HEFDieselPassengerCar]

/-- C1 counterexample: the zero-speed convention does not short-circuit
everything.  HEFDieselPassengerCar checks Euro_3_GDI before the zero-speed
check, so at speed 0 it raises instead of returning 0; and
HEFHeavyDutyVehicle has no zero-speed shortcut at all: on a repository
whose selected row is the constant-1 quadratic it returns factor 1 at
speed 0. -/
theorem C1_counterexample :
    HEFDieselPassengerCar .CO 0 .Euro_3_GDI 1.6 = .error .dieselEuro3GDI
    ∧ HEFHeavyDutyVehicle hdvTableW 0 .heavy_duty_vehicle 0 0 .CO 0 0
        = .ok (.val 1)
    ∧ HEFHeavyDutyVehicle hdvTableW 0 .heavy_duty_vehicle 0 0 .CO 0 0
        ≠ .ok (.val 0) := by
  refine ⟨by simp [HEFDieselPassengerCar], ?_, ?_⟩
  · norm_num +decide [HEFHeavyDutyVehicle, hdvRowLookup, hdvTableW, hdvRowW,
      indexVehicleType, indexPollutant, evalEqHdv, Eq_hdv_15, clampQ,
      show Int.toNat 15 = 15 from rfl]
  · norm_num +decide [HEFHeavyDutyVehicle, hdvRowLookup, hdvTableW, hdvRowW,
      indexVehicleType, indexPollutant, evalEqHdv, Eq_hdv_15, clampQ,
      show Int.toNat 15 = 15 from rfl]

/-- C1 amended: speed 0 yields factor 0 unconditionally for
HEFGasolinePassengerCar and HEFLightCommercialVehicle (their first check),
and for HEFDieselPassengerCar for every class except Euro_3_GDI, whose
no-formula exception precedes the zero-speed check;
HEFHeavyDutyVehicle has no zero-speed convention. -/
theorem C1_amended_zero_speed :
    (∀ (p : Pollutant) (c : CopertClass) (cap : ℚ),
      HEFGasolinePassengerCar p 0 c cap = .ok (.val 0))
    ∧ (∀ (tbl : LdvTable) (p : Pollutant) (e : EngineType) (c : CopertClass),
      HEFLightCommercialVehicle tbl p 0 e c = .ok (.val 0))
    ∧ (∀ (p : Pollutant) (c : CopertClass) (cap : ℚ),
      c ≠ .Euro_3_GDI → HEFDieselPassengerCar p 0 c cap = .ok (.val 0))
    ∧ (∀ (p : Pollutant) (cap : ℚ),
      HEFDieselPassengerCar p 0 .Euro_3_GDI cap = .error .dieselEuro3GDI) := by
  refine ⟨fun p c cap => ?_, fun tbl p e c => ?_, fun p c cap h => ?_,
    fun p cap => ?_⟩
  · simp [HEFGasolinePassengerCar]
  · rw [HEFLightCommercialVehicle]
    simp
  · simp [HEFDieselPassengerCar, h]
  · simp [HEFDieselPassengerCar]

/-- C1 witness: the amended statement applied at concrete inputs. -/
theorem C1_witness :
    HEFGasolinePassengerCar .CO 0 .Euro_4 1.6 = .ok (.val 0)
    ∧ HEFDieselPassengerCar .NOx 0 .Euro_6 2.2 = .ok (.val 0) :=
  ⟨C1_amended_zero_speed.1 .CO .Euro_4 1.6,
   C1_amended_zero_speed.2.2.1 .NOx .Euro_6 2.2 (by decide)⟩

/-- C2: the code does not raise on the pre-Euro combinations that have no
formula; it falls off the if/elif chain and returns the Python None.
Evaluations at the failing inputs: gasoline passenger car, class PRE_ECE,
speed 50, capacity 1.0, pollutants HC, PM and FC; and diesel passenger
car, class PRE_ECE, speed 50, capacity 1.6, pollutant HC. -/
theorem C2_code_bug_eval :
    HEFGasolinePassengerCar .HC 50 .PRE_ECE 1 = .ok .none
    ∧ HEFGasolinePassengerCar .PM 50 .PRE_ECE 1 = .ok .none
    ∧ HEFGasolinePassengerCar .FC 50 .PRE_ECE 1 = .ok .none
    ∧ HEFDieselPassengerCar .HC 50 .PRE_ECE 1.6 = .ok .none := by
  refine ⟨?_, ?_, ?_, ?_⟩ <;>
    norm_num +decide [HEFGasolinePassengerCar, HEFDieselPassengerCar,
      globalClassIndex]

/-- C3 counterexample: a speed strictly below 10 does not always raise the
out-of-domain exception.  At speed 0 (which is strictly below 10) the
gasoline resolver returns factor 0, and at speed 5 the diesel resolver
with class Euro_3_GDI raises the no-formula exception, which is a
different error than the out-of-domain one. -/
theorem C3_counterexample :
    HEFGasolinePassengerCar .CO 0 .PRE_ECE 1 = .ok (.val 0)
    ∧ HEFGasolinePassengerCar .CO 0 .PRE_ECE 1 ≠ .error .speedOutOfDomain
    ∧ HEFDieselPassengerCar .CO 5 .Euro_3_GDI 1.6 = .error .dieselEuro3GDI
    ∧ CopertError.dieselEuro3GDI ≠ CopertError.speedOutOfDomain := by
  refine ⟨?_, ?_, ?_, by decide⟩ <;>
    simp [HEFGasolinePassengerCar, HEFDieselPassengerCar]

/-- C3 amended: for every pollutant, class and capacity, a nonzero speed
strictly below 10 or strictly above 130 raises the out-of-domain
exception in HEFGasolinePassengerCar, and in HEFDieselPassengerCar for
every class except Euro_3_GDI (whose no-formula exception fires first);
speed 0 instead returns factor 0. -/
theorem C3_amended_out_of_domain (p : Pollutant) (c : CopertClass)
    (s cap : ℚ) (hs : s ≠ 0) (hd : s < 10 ∨ s > 130) :
    HEFGasolinePassengerCar p s c cap = .error .speedOutOfDomain
    ∧ (c ≠ .Euro_3_GDI →
        HEFDieselPassengerCar p s c cap = .error .speedOutOfDomain) := by
  constructor
  · simp [HEFGasolinePassengerCar, hs, hd]
  · intro hgdi
    simp [HEFDieselPassengerCar, hgdi, hs, hd]

/-- C3 witness: the amended statement applied at speed 5 (below the
domain) and speed 135 (above it). -/
theorem C3_witness :
    HEFGasolinePassengerCar .CO 5 .Euro_1 1.6 = .error .speedOutOfDomain
    ∧ HEFDieselPassengerCar .NOx 135 .Euro_5 1.6 = .error .speedOutOfDomain :=
  ⟨(C3_amended_out_of_domain .CO .Euro_1 5 1.6 (by norm_num)
      (Or.inl (by norm_num))).1,
   (C3_amended_out_of_domain .NOx .Euro_5 135 1.6 (by norm_num)
      (Or.inr (by norm_num))).2 (by decide)⟩

/-- C9 counterexample: with class ECE_15_02 and capacity 0.5 the
engine-capacity exception is not raised regardless of speed: at speed 0
the function returns 0, and at speed 5 it raises the out-of-domain
exception instead, because both speed checks precede the capacity
check. -/
theorem C9_counterexample :
    HEFGasolinePassengerCar .CO 0 .ECE_15_02 0.5 = .ok (.val 0)
    ∧ HEFGasolinePassengerCar .CO 5 .ECE_15_02 0.5 = .error .speedOutOfDomain
    ∧ CopertError.speedOutOfDomain ≠ CopertError.capacityBelow08 := by
  refine ⟨?_, ?_, by decide⟩ <;> norm_num [HEFGasolinePassengerCar]

/-- C9 amended: gasoline passenger car, class ECE_15_02, capacity 0.5:
for every pollutant and every speed inside the supported interval
[10, 130] the engine-capacity-below-0.8L exception is raised; speed 0
returns 0 and nonzero out-of-domain speeds raise the out-of-domain
exception first. -/
theorem C9_amended_capacity (p : Pollutant) (s : ℚ)
    (h1 : 10 ≤ s) (h2 : s ≤ 130) :
    HEFGasolinePassengerCar p s .ECE_15_02 0.5 = .error .capacityBelow08 := by
  have hs : ¬(s = 0) := by intro h; rw [h] at h1; norm_num at h1
  have hd : ¬(s < 10 ∨ s > 130) := by
    push_neg
    exact ⟨h1, h2⟩
  norm_num +decide [HEFGasolinePassengerCar, hs, hd]

/-- C9 witness: the amended statement applied at pollutant NOx and
speed 50. -/
theorem C9_witness :
    HEFGasolinePassengerCar .NOx 50 .ECE_15_02 0.5 = .error .capacityBelow08 :=
  C9_amended_capacity .NOx 50 (by norm_num) (by norm_num)

/-- C8: gasoline passenger car, class PRE_ECE, pollutant CO, capacity at
least 0.8 l: for every speed V in [10, 130], the factor is
281 * V^(-0.63) when V < 100 and 0.112 * V + 4.32 when V >= 100
(copert.py lines 712-716). -/
theorem C8_pre_ece_co (s cap : ℚ) (h1 : 10 ≤ s) (h2 : s ≤ 130)
    (hcap : (0.8 : ℚ) ≤ cap) :
    (s < 100 → HEFGasolinePassengerCar .CO s .PRE_ECE cap
      = .ok (.val (281 * (s : ℝ) ^ (-0.63 : ℝ))))
    ∧ (100 ≤ s → HEFGasolinePassengerCar .CO s .PRE_ECE cap
      = .ok (.val (0.112 * (s : ℝ) + 4.32))) := by
  have hs : ¬(s = 0) := by intro h; rw [h] at h1; norm_num at h1
  have hd : ¬(s < 10 ∨ s > 130) := by
    push_neg
    exact ⟨h1, h2⟩
  have hc : ¬(cap < 0.8) := not_lt.mpr hcap
  constructor
  · intro h100
    norm_num +decide [HEFGasolinePassengerCar, hs, hd, h100, power]
    intro hlt
    exact absurd hlt (by linarith)
  · intro h100
    have h100n : ¬(s < 100) := not_lt.mpr h100
    norm_num +decide [HEFGasolinePassengerCar, hs, hd, h100n, linear]
    intro hlt
    exact absurd hlt (by linarith)

/-- C8 witness: the theorem applied at speed 80 (the V < 100 arm, factor
281 * 80^(-0.63)) and at speed 110 (the V >= 100 arm, factor
0.112 * 110 + 4.32 = 16.64). -/
theorem C8_witness :
    HEFGasolinePassengerCar .CO 80 .PRE_ECE 1
      = .ok (.val (281 * ((80 : ℚ) : ℝ) ^ (-0.63 : ℝ)))
    ∧ HEFGasolinePassengerCar .CO 110 .PRE_ECE 1 = .ok (.val 16.64) := by
  constructor
  · exact (C8_pre_ece_co 80 1 (by norm_num) (by norm_num) (by norm_num)).1
      (by norm_num)
  · have h := (C8_pre_ece_co 110 1 (by norm_num) (by norm_num)
      (by norm_num)).2 (by norm_num)
    rw [h]
    norm_num

/-- C10: Emission raises for every vehicle type other than passenger car
and, for passenger cars, for every engine type other than gasoline and
diesel (so the light-commercial and heavy-duty resolvers are unreachable
from Emission); for gasoline and diesel passenger cars whose hot emission
factor is the float x, Emission returns distance * x, and an error of the
factor computation propagates unchanged. -/
theorem C10_emission :
    (∀ (p : Pollutant) (s d : ℚ) (vt : VehicleType) (et : EngineType)
       (c : CopertClass) (cap t : ℚ), vt ≠ .passenger_car →
       Emission p s d vt et c cap t = .error .onlyPassengerCars)
    ∧ (∀ (p : Pollutant) (s d : ℚ) (et : EngineType) (c : CopertClass)
       (cap t : ℚ), et ≠ .gasoline → et ≠ .diesel →
       Emission p s d .passenger_car et c cap t
         = .error .onlyGasolineDiesel)
    ∧ (∀ (p : Pollutant) (s d : ℚ) (c : CopertClass) (cap t : ℚ) (x : ℝ),
       HEFGasolinePassengerCar p s c cap = .ok (.val x) →
       Emission p s d .passenger_car .gasoline c cap t
         = .ok (.val ((d : ℝ) * x)))
    ∧ (∀ (p : Pollutant) (s d : ℚ) (c : CopertClass) (cap t : ℚ) (x : ℝ),
       HEFDieselPassengerCar p s c cap = .ok (.val x) →
       Emission p s d .passenger_car .diesel c cap t
         = .ok (.val ((d : ℝ) * x)))
    ∧ (∀ (p : Pollutant) (s d : ℚ) (c : CopertClass) (cap t : ℚ)
       (err : CopertError),
       HEFGasolinePassengerCar p s c cap = .error err →
       Emission p s d .passenger_car .gasoline c cap t = .error err) := by
  refine ⟨fun p s d vt et c cap t hvt => ?_,
    fun p s d et c cap t h1 h2 => ?_,
    fun p s d c cap t x h => ?_,
    fun p s d c cap t x h => ?_,
    fun p s d c cap t err h => ?_⟩
  · simp [Emission, hvt]
  · simp [Emission, h1, h2]
  · simp [Emission, h]
  · simp [Emission, h]
  · simp [Emission, h]

/-- C10 witness: the conjuncts applied at concrete inputs (a bus, an LPG
passenger car, and gasoline / diesel passenger cars whose factors are
evaluated directly). -/
theorem C10_witness :
    Emission .CO 50 7 .bus .gasoline .Euro_1 1.6 20
      = .error .onlyPassengerCars
    ∧ Emission .CO 50 7 .passenger_car .LPG .Euro_1 1.6 20
      = .error .onlyGasolineDiesel
    ∧ Emission .CO 110 7 .passenger_car .gasoline .PRE_ECE 1 20
      = .ok (.val ((7 : ℚ) * (0.112 * ((110 : ℚ) : ℝ) + 4.32)))
    ∧ Emission .CO 5 7 .passenger_car .gasoline .Euro_1 1.6 20
      = .error .speedOutOfDomain := by
  refine ⟨C10_emission.1 .CO 50 7 .bus .gasoline .Euro_1 1.6 20 (by decide),
    C10_emission.2.1 .CO 50 7 .LPG .Euro_1 1.6 20 (by decide) (by decide),
    C10_emission.2.2.1 .CO 110 7 .PRE_ECE 1 20
      (0.112 * ((110 : ℚ) : ℝ) + 4.32) ?_,
    C10_emission.2.2.2.2 .CO 5 7 .Euro_1 1.6 20 .speedOutOfDomain ?_⟩
  · have hs : ¬((110 : ℚ) = 0) := by norm_num
    have hd : ¬((110 : ℚ) < 10 ∨ (110 : ℚ) > 130) := by norm_num
    have h100n : ¬((110 : ℚ) < 100) := by norm_num
    norm_num +decide [HEFGasolinePassengerCar, hs, hd, h100n, linear]
  · norm_num [HEFGasolinePassengerCar]

/-- C6: what HEFLightCommercialVehicle actually does for HC and FC with
classes Euro 2 .. Euro 4.  For FC the explicit no-formula
(UndefinedCombination) exception of lines 1067-1069 is raised, as the
claim states.  For HC, however, the recursive Euro 1 call dies first with
a KeyError at line 1025, because HC is not a key of
index_pollutant_pre_euro_4 — the explicit HC raises at lines 1029-1038
are unreachable.  (The repository argument is irrelevant: these classes
never reach it.) -/
theorem C6_code_bug_eval :
    HEFLightCommercialVehicle ldvTableW0 .HC 50 .diesel .Euro_2
      = .error .keyError
    ∧ HEFLightCommercialVehicle ldvTableW0 .HC 50 .gasoline .Euro_3
      = .error .keyError
    ∧ HEFLightCommercialVehicle ldvTableW0 .HC 50 .diesel .Euro_4
      = .error .keyError
    ∧ HEFLightCommercialVehicle ldvTableW0 .FC 50 .diesel .Euro_2
      = .error .lcvEuro2to4NoFormula
    ∧ HEFLightCommercialVehicle ldvTableW0 .FC 50 .gasoline .Euro_4
      = .error .lcvEuro2to4NoFormula := by
  refine ⟨?_, ?_, ?_, ?_, ?_⟩ <;>
  · rw [HEFLightCommercialVehicle]
    norm_num +decide [classNumber]
    rw [HEFLightCommercialVehicle]
    norm_num +decide [classNumber, preEuro1RowLookup, indexPollutantPreEuro4,
      ldvPreEuro1Row, engineIndex2, ldv_parameter_pre_euro_1]

/-- C5: for light commercial vehicles of class Euro 2, Euro 3 or Euro 4
and a pollutant other than HC and FC, the factor is the Euro 1 factor for
the same inputs multiplied by (1 - reduction_percentage / 100), the
percentage coming from the fixed reduction table indexed by engine type,
class and pollutant (copert.py lines 1046-1065; reductionLookup is that
indexing). -/
theorem C5_lcv_reduction (tbl : LdvTable) (p : Pollutant) (e : EngineType)
    (c : CopertClass) (s : ℚ) (x : ℝ) (rp : ℚ)
    (hc : c = .Euro_2 ∨ c = .Euro_3 ∨ c = .Euro_4)
    (hHC : p ≠ .HC) (hFC : p ≠ .FC)
    (h1 : HEFLightCommercialVehicle tbl p s e .Euro_1 = .ok (.val x))
    (hr : reductionLookup e c p = .ok (Option.some rp)) :
    HEFLightCommercialVehicle tbl p s e c
      = .ok (.val (x * (1 - (rp : ℝ) / 100))) := by
  by_cases hs : s = 0
  · subst hs
    rw [HEFLightCommercialVehicle] at h1
    simp at h1
    rw [HEFLightCommercialVehicle]
    simp [← h1]
  · rcases hc with rfl | rfl | rfl <;>
    · rw [HEFLightCommercialVehicle, if_neg hs]
      norm_num +decide [classNumber, h1, hr, hHC, hFC]
      exact Or.inl (by ring)

/-- C5 witness: the theorem applied to engine type diesel, pollutant CO,
class Euro 2, speed 50 on the empty Euro-5 repository: the Euro 1 factor
is quadratic(22.3e-5, -0.026, 1.076, 50) = 0.3335 and the reduction
percentage for (diesel, Euro 2, CO) is 0. -/
theorem C5_witness :
    HEFLightCommercialVehicle ldvTableW0 .CO 50 .diesel .Euro_2
      = .ok (.val ((0.3335 : ℝ) * (1 - ((0 : ℚ) : ℝ) / 100))) := by
  refine C5_lcv_reduction ldvTableW0 .CO .diesel .Euro_2 50 0.3335 0
    (Or.inl rfl) (by decide) (by decide) ?_
    (by norm_num [reductionLookup, indexPollutantPreEuro4,
      ldvReductionPercentage, engineIndex2, ldv_reduction_percentage])
  rw [HEFLightCommercialVehicle]
  norm_num +decide [classNumber, preEuro1RowLookup, indexPollutantPreEuro4,
    ldvPreEuro1Row, engineIndex2, ldv_parameter_pre_euro_1, clampQ, quadratic]

/-- C7: once a coefficient row with domain [Vmin, Vmax] has been selected,
the speed is clamped into the domain rather than rejected: the factor at a
nonzero speed s equals the factor at min(max(Vmin, s), Vmax).  Stated for
the three table-driven sites: the pre-Euro-1 light-commercial branch, the
Euro-5-and-later light-commercial branch (for any repository row whose
domain bounds are positive, as they are in the parameter files), and the
heavy-duty resolver (which needs no positivity, having no zero-speed
shortcut). -/
theorem C7_speed_clamp :
    (∀ (tbl : LdvTable) (p : Pollutant) (e : EngineType) (c : CopertClass)
       (s Vmin Vmax a b cc : ℚ), s ≠ 0 → 0 < Vmin → 0 < Vmax →
       classNumber c ≤ 7 →
       preEuro1RowLookup e c p = .ok (Option.some (Vmin, Vmax, a, b, cc)) →
       HEFLightCommercialVehicle tbl p s e c
         = HEFLightCommercialVehicle tbl p (clampQ Vmin Vmax s) e c)
    ∧ (∀ (tbl : LdvTable) (p : Pollutant) (e : EngineType) (c : CopertClass)
       (s : ℚ) (row : LdvRow), s ≠ 0 → 0 < row.Vmin → 0 < row.Vmax →
       12 ≤ classNumber c →
       ldvRowLookup tbl e c p = .ok row →
       HEFLightCommercialVehicle tbl p s e c
         = HEFLightCommercialVehicle tbl p (clampQ row.Vmin row.Vmax s) e c)
    ∧ (∀ (tbl : HdvTable) (vc : VehicleType) (ht hcl load slope : ℕ)
       (p : Pollutant) (s : ℚ) (row : HdvRow),
       hdvRowLookup tbl vc ht hcl p load slope = .ok row →
       HEFHeavyDutyVehicle tbl s vc ht hcl p load slope
         = HEFHeavyDutyVehicle tbl (clampQ row.Vmin row.Vmax s) vc ht hcl
             p load slope) := by
  refine ⟨fun tbl p e c s Vmin Vmax a b cc hs hv1 hv2 h7 hlk => ?_,
    fun tbl p e c s row hs hv1 hv2 h12 hlk => ?_,
    fun tbl vc ht hcl load slope p s row hlk => ?_⟩
  · have hcl0 : ¬(clampQ Vmin Vmax s = 0) :=
      (clampQ_pos Vmin Vmax s hv1 hv2).ne'
    conv_lhs => rw [HEFLightCommercialVehicle]
    conv_rhs => rw [HEFLightCommercialVehicle]
    rw [if_neg hs, if_neg hcl0, if_pos h7, if_pos h7, hlk]
    simp [clampQ_idem]
  · have hcl0 : ¬(clampQ row.Vmin row.Vmax s = 0) :=
      (clampQ_pos row.Vmin row.Vmax s hv1 hv2).ne'
    have h7 : ¬(classNumber c ≤ 7) := by omega
    have h811 : ¬(8 ≤ classNumber c ∧ classNumber c ≤ 11) := by omega
    conv_lhs => rw [HEFLightCommercialVehicle]
    conv_rhs => rw [HEFLightCommercialVehicle]
    rw [if_neg hs, if_neg hcl0, if_neg h7, if_neg h7, dif_neg h811,
      dif_neg h811, if_pos h12, if_pos h12, hlk]
    simp [clampQ_idem]
  · unfold HEFHeavyDutyVehicle
    rw [hlk]
    simp [clampQ_idem]

/-- C7 witness: the three clamp statements applied at concrete inputs:
the diesel CO Euro 1 row (domain [10, 110]) at speed 200, the concrete
Euro 5 repository row (domain [10, 100]) at speed 3, and the concrete
heavy-duty row (domain [10, 100]) at speed 0. -/
theorem C7_witness :
    HEFLightCommercialVehicle ldvTableW0 .CO 200 .diesel .Euro_1
      = HEFLightCommercialVehicle ldvTableW0 .CO (clampQ 10 110 200)
          .diesel .Euro_1
    ∧ HEFLightCommercialVehicle ldvTableW .CO 3 .gasoline .Euro_5
      = HEFLightCommercialVehicle ldvTableW .CO (clampQ 10 100 3)
          .gasoline .Euro_5
    ∧ HEFHeavyDutyVehicle hdvTableW 0 .bus 1 2 .NOx 1 2
      = HEFHeavyDutyVehicle hdvTableW (clampQ 10 100 0) .bus 1 2 .NOx 1 2 := by
  refine ⟨C7_speed_clamp.1 ldvTableW0 .CO .diesel .Euro_1 200 10 110
      22.3e-5 (-0.026) 1.076 (by norm_num) (by norm_num) (by norm_num)
      (by decide) ?_,
    C7_speed_clamp.2.1 ldvTableW .CO .gasoline .Euro_5 3 ldvRowW
      (by norm_num) (by norm_num [ldvRowW]) (by norm_num [ldvRowW])
      (by decide) ?_,
    C7_speed_clamp.2.2 hdvTableW .bus 1 2 1 2 .NOx 0 hdvRowW ?_⟩
  · norm_num +decide [preEuro1RowLookup, indexPollutantPreEuro4,
      ldvPreEuro1Row, engineIndex2, ldv_parameter_pre_euro_1]
  · rfl
  · rfl
